import Mathlib

/-!
Verification of the recency-ranked image selector
(`load_most_recent_image.py`): a shallow embedding of the node's three
operations — `load_most_recent_image` (here `select`), `VALIDATE_INPUTS`
and `IS_CHANGED` — over an explicit filesystem model, together with the
pixel-mode normalization pipeline that turns a decoded image into an RGB
tensor and a mask tensor.

Python strings are modelled as `List Char` so that every string operation
of the source (`split`, `strip`, `lower`, `upper`, prefix/suffix tests)
is a structurally recursive, kernel-computable Lean function.  Pixel and
mask samples are modelled as exact rationals (the source computes in
float32; the values reached here — quotients of naturals by 255 — are
exactly representable up to float rounding, which none of the claims
distinguish).
-/

/-- Python strings (and paths) are lists of characters. -/
abbrev Str := List Char

/-- Python `str.lower()` (ASCII case mapping, which is all the source uses). -/
def pyLower (s : Str) : Str := s.map Char.toLower

/-- Python `str.upper()` (ASCII case mapping). -/
def pyUpper (s : Str) : Str := s.map Char.toUpper

/-- Python `str.strip()`: drop whitespace from both ends. -/
def pyStrip (s : Str) : Str :=
  ((s.dropWhile Char.isWhitespace).reverse.dropWhile Char.isWhitespace).reverse

/-- Python `str.split(sep)` for a one-character separator: every occurrence
splits, empty fields are kept, and the empty string yields `[""]`. -/
def splitOnCh (sep : Char) : Str → List Str
  | [] => [[]]
  | c :: rest =>
    if c = sep then [] :: splitOnCh sep rest
    else
      match splitOnCh sep rest with
      | [] => [[c]]
      | t :: ts => (c :: t) :: ts

/-- One extension token of the comma-separated list, as the source prepares
it: `ext.strip().lower()`, then a leading dot is added unless present
(`ext if ext.startswith('.') else f".{ext}"`). -/
def parseExt (tok : Str) : Str :=
  let e := pyLower (pyStrip tok)
  if e.take 1 = ".".data then e else '.' :: e

/-- `[ext.strip().lower() for ext in image_extensions.split(",")]` with the
dot prefix applied to each token. -/
def parseExtensions (csv : Str) : List Str := (splitOnCh ',' csv).map parseExt

/-- Whether `glob.glob(os.path.join(folder, "*" + ext))` matches a directory
entry `name`: the name ends with `ext`, and — because a `*` pattern never
matches a leading dot — the name is not hidden. -/
def globMatch (ext : Str) (name : Str) : Bool :=
  ext.isSuffixOf name && !(name.take 1 = ".".data)

/-- `os.path.join(folder, name)` for a folder path with no trailing
separator (the only shape the claims exercise). -/
def joinPath (folder name : Str) : Str := folder ++ "/".data ++ name

/-- A decoded PIL image, abstracted to what the pipeline reads of it:
its `mode` string, whether `'transparency' in image.info`, its size, the
RGB channel values `convert('RGB')` would produce, and the alpha channel
values `split()[-1]` would produce once the image is (or has been promoted
to) RGBA.  Channel values are in `[0, 255]`. -/
structure Img where
  mode : Str
  transparencyInfo : Bool
  height : Nat
  width : Nat
  rgb : Nat → Nat → Fin 3 → ℚ
  alpha : Nat → Nat → ℚ

/-- What `Image.open` + `img.load()` yields for a file that decodes:
the detected `img.format` and the image. -/
structure DecodedFile where
  format : Str
  img : Img

/-- The filesystem as the node observes it: `os.path.exists`,
`os.path.isdir`, the directory entries `glob` enumerates (in scan order),
`os.path.getmtime` on joined paths, and the result of opening a file as an
image (`.error msg` models a decode failure with exception text `msg`).
All reads are deterministic within one call, matching the single-scan,
no-caching behavior of the source. -/
structure FS where
  pathExists : Str → Bool
  isDir : Str → Bool
  listing : Str → List Str
  mtime : Str → Int
  readImage : Str → Except Str DecodedFile

/-- The files one `glob.glob(os.path.join(folder_path, "*" + ext))` call
returns: matching entries of the directory scan, joined to the folder. -/
def globOnce (fs : FS) (folder ext : Str) : List Str :=
  ((fs.listing folder).filter (globMatch ext)).map (joinPath folder)

/-- One iteration of the enumeration loop: the lower-case pattern's
matches, then the upper-case pattern's matches. -/
def globPair (fs : FS) (folder ext : Str) : List Str :=
  globOnce fs folder ext ++ globOnce fs folder (pyUpper ext)

/-- The accumulated `image_files` list: for each parsed extension, the
lower-case glob then the upper-case glob, in loop order.  No
deduplication. -/
def candidatesFor (fs : FS) (folder : Str) (exts : List Str) : List Str :=
  exts.flatMap (globPair fs folder)

/-- The candidate list for the raw comma-separated extension input. -/
def candidateFiles (fs : FS) (folder csv : Str) : List Str :=
  candidatesFor fs folder (parseExtensions csv)

/-- Insert `x` into a list already sorted by `mt` descending, before the
first element whose key is `≤ mt x` — so elements equal to `x` stay after
it, as Python's stable `sort(key=..., reverse=True)` keeps them. -/
def insertDesc (mt : Str → Int) (x : Str) : List Str → List Str
  | [] => [x]
  | y :: ys => if mt y ≤ mt x then x :: y :: ys else y :: insertDesc mt x ys

/-- `image_files.sort(key=os.path.getmtime, reverse=True)`: stable sort by
modification time, most recent first. -/
def sortDesc (mt : Str → Int) : List Str → List Str
  | [] => []
  | x :: xs => insertDesc mt x (sortDesc mt xs)

/-- Python list subscription `l[i]` for an `int` index: non-negative
indices count from the front, `-len l ≤ i < 0` wraps to `len l + i`, and
anything below `-len l` raises `IndexError` (`none`). -/
def pyIndex (l : List Str) (i : Int) : Option Str :=
  if 0 ≤ i then l.get? i.toNat
  else if -(l.length : Int) ≤ i then l.get? (((l.length : Int) + i).toNat)
  else none

/-- The failure taxonomy of `load_most_recent_image`.  The source raises
`ValueError` at five distinct sites, distinguished here by constructor;
`pyIndexErr` is the uncaught `IndexError` a subscript below `-len` raises
at the selection line (outside the `try` block). -/
inductive SelectError where
  | notFound (msg : Str)
  | notADirectory (msg : Str)
  | noMatch (msg : Str)
  | indexOutOfRange (msg : Str)
  | invalidImage (msg : Str)
  | pyIndexErr
deriving DecidableEq

/-- Decimal rendering of a natural, as Python interpolates it. -/
def natStr (n : Nat) : Str := (Nat.repr n).data

/-- Decimal rendering of an integer, as Python interpolates it. -/
def intStr (i : Int) : Str := (Int.repr i).data

/-- `f"Folder path does not exist: {folder_path}"`. -/
def msgNotFound (folder : Str) : Str := "Folder path does not exist: ".data ++ folder

/-- `f"Path is not a directory: {folder_path}"`. -/
def msgNotADir (folder : Str) : Str := "Path is not a directory: ".data ++ folder

/-- `f"No image files found in folder: {folder_path}"`. -/
def msgNoMatch (folder : Str) : Str := "No image files found in folder: ".data ++ folder

/-- `f"Index {index} is out of range. Only {len(image_files)} image(s) found in folder."`. -/
def msgOutOfRange (index : Int) (n : Nat) : Str :=
  "Index ".data ++ intStr index ++ " is out of range. Only ".data ++ natStr n
    ++ " image(s) found in folder.".data

/-- `os.path.basename`: the part after the last separator. -/
def basename (p : Str) : Str := (splitOnCh '/' p).getLastD p

/-- The formats `_validate_image_file` accepts. -/
def supportedFormats : List Str :=
  ["JPEG".data, "PNG".data, "BMP".data, "TIFF".data, "WEBP".data, "GIF".data]

/-- The inner message `_validate_image_file` raises: `f"Invalid image file:
{os.path.basename(image_path)} - {str(e)}"`, where `e` is either the decode
failure or the `f"Unsupported image format: {img.format}"` it raised itself. -/
def msgInvalidFile (p inner : Str) : Str :=
  "Invalid image file: ".data ++ basename p ++ " - ".data ++ inner

/-- `f"Unsupported image format: {img.format}"`. -/
def msgUnsupported (format : Str) : Str := "Unsupported image format: ".data ++ format

/-- The wrapper the outer `except` applies: `f"Error loading image
{selected_file}: {str(e)}"`. -/
def msgErrorLoading (p inner : Str) : Str :=
  "Error loading image ".data ++ p ++ ": ".data ++ inner

/-- Steps 1–5 of `load_most_recent_image`: path validation, extension
expansion, candidate enumeration, the empty check, the stable descending
sort, the range check `index >= len(image_files)`, and the subscription
`image_files[index]`.  Returns the selected path or the failure. -/
def selectedPath (fs : FS) (folder csv : Str) (index : Int) : Except SelectError Str :=
  if folder = [] ∨ fs.pathExists folder = false then
    .error (.notFound (msgNotFound folder))
  else if fs.isDir folder = false then
    .error (.notADirectory (msgNotADir folder))
  else if candidateFiles fs folder csv = [] then
    .error (.noMatch (msgNoMatch folder))
  else if ((sortDesc fs.mtime (candidateFiles fs folder csv)).length : Int) ≤ index then
    .error (.indexOutOfRange (msgOutOfRange index (sortDesc fs.mtime (candidateFiles fs folder csv)).length))
  else
    match pyIndex (sortDesc fs.mtime (candidateFiles fs folder csv)) index with
    | some f => .ok f
    | none => .error .pyIndexErr

/-- A tensor as a nested array of rational samples, so the dimension
structure of the returned buffers (including the added batch axis) is part
of the value, not of a fixed Lean type. -/
inductive Tensor where
  | scalar (v : ℚ)
  | arr (ts : List Tensor)

/-- The shape of a (rectangular) tensor, read off its first spine:
`[]` for a scalar, `[0]` for an empty axis, else length :: inner shape. -/
def tshape : Tensor → List Nat
  | .scalar _ => []
  | .arr [] => [0]
  | .arr (t :: ts) => (ts.length + 1) :: tshape t

/-- The mask inversion applied to one alpha sample:
`mask = 1.0 - alpha/255.0` (the source divides by 255 and inverts). -/
def maskVal (a : ℚ) : ℚ := 1 - a / 255

/-- The final pixel scaling `np.array(image).astype(np.float32) / 255.0`
applied to one channel sample. -/
def scaleVal (v : ℚ) : ℚ := v / 255

/-- A height × width mask buffer materialized row-major from a sample
function. -/
def maskTensorOf (h w : Nat) (f : Nat → Nat → ℚ) : Tensor :=
  .arr ((List.range h).map (fun y =>
    .arr ((List.range w).map (fun x => .scalar (f y x)))))

/-- A height × width × 3 image buffer materialized row-major from a
channel function. -/
def imageTensorOf (h w : Nat) (f : Nat → Nat → Fin 3 → ℚ) : Tensor :=
  .arr ((List.range h).map (fun y =>
    .arr ((List.range w).map (fun x =>
      .arr [.scalar (f y x 0), .scalar (f y x 1), .scalar (f y x 2)]))))

/-- `torch.from_numpy(...)[None,]`: the added leading batch axis. -/
def batch (t : Tensor) : Tensor := .arr [t]

/-- The pair the node returns: `(image_tensor, mask_tensor)`. -/
structure LoadResult where
  image : Tensor
  mask : Tensor

/-- `image.point(lambda i: i * (1 / 255))` on a mode-`I` image: every
sample of the (single) band is rescaled by 1/255; the mode is unchanged. -/
def pointDiv255 (img : Img) : Img :=
  { img with rgb := fun y x c => img.rgb y x c / 255,
             alpha := fun y x => img.alpha y x / 255 }

/-- `image.convert('RGBA')`: the mode becomes RGBA; the channel data the
rest of the pipeline reads (`rgb`, `alpha`) is already carried by `Img`. -/
def toRGBA (img : Img) : Img := { img with mode := "RGBA".data }

/-- The first two normalization steps: the mode-`I` rescale, then the
promotion to RGBA when a transparency marker is present. -/
def stage12 (img : Img) : Img :=
  let i1 := if img.mode = "I".data then pointDiv255 img else img
  if i1.transparencyInfo then toRGBA i1 else i1

/-- The mode branch and tensor conversion of the source: an RGBA image
yields the inverted-alpha mask and its RGB channels; anything else yields
an all-ones mask `np.ones((height, width))`.  Both branches scale the RGB
samples by 1/255 and add the batch axis. -/
def processImage (img : Img) : LoadResult :=
  let i2 := stage12 img
  if i2.mode = "RGBA".data then
    { image := batch (imageTensorOf i2.height i2.width (fun y x c => scaleVal (i2.rgb y x c)))
      mask := batch (maskTensorOf i2.height i2.width (fun y x => maskVal (i2.alpha y x))) }
  else
    { image := batch (imageTensorOf i2.height i2.width (fun y x c => scaleVal (i2.rgb y x c)))
      mask := batch (maskTensorOf i2.height i2.width (fun _ _ => 1)) }

/-- The `try` block of `load_most_recent_image` applied to the selected
file: `_validate_image_file` (decode + format check, whose `ValueError` the
outer handler wraps), then the load and normalization.  A second
`Image.open` of the same path reads the same `DecodedFile`, so the two
opens are one `readImage` here. -/
def loadImage (fs : FS) (p : Str) : Except SelectError LoadResult :=
  match fs.readImage p with
  | .error m =>
    .error (.invalidImage (msgErrorLoading p (msgInvalidFile p m)))
  | .ok d =>
    if supportedFormats.contains d.format then .ok (processImage d.img)
    else .error (.invalidImage (msgErrorLoading p (msgInvalidFile p (msgUnsupported d.format))))

/-- `load_most_recent_image`: select the path, then load and normalize it. -/
def select (fs : FS) (folder csv : Str) (index : Int) : Except SelectError LoadResult :=
  match selectedPath fs folder csv index with
  | .error e => .error e
  | .ok f => loadImage fs f

/-- `VALIDATE_INPUTS`: the same checks reported as strings, `.ok ()`
standing for the Python `True` sentinel.  Check order as in the source:
empty path, existence, directory, negative index, extension parse (which
cannot fail on these inputs and adds no branch), enumeration, emptiness,
range check against the unsorted list, sort, subscription + decode inside
a `try` whose failures become `f"Error validating image at index {index}:
{str(e)}"`, and the format check which returns its message directly. -/
def VALIDATE_INPUTS (fs : FS) (folder csv : Str) (index : Int) : Except Str Unit :=
  if folder = [] then .error "Folder path cannot be empty".data
  else if fs.pathExists folder = false then .error (msgNotFound folder)
  else if fs.isDir folder = false then .error (msgNotADir folder)
  else if index < 0 then .error ("Index must be non-negative, got: ".data ++ intStr index)
  else if candidateFiles fs folder csv = [] then .error (msgNoMatch folder)
  else if ((candidateFiles fs folder csv).length : Int) ≤ index then
    .error (msgOutOfRange index (candidateFiles fs folder csv).length)
  else
    match pyIndex (sortDesc fs.mtime (candidateFiles fs folder csv)) index with
    | none => .error ("Error validating image at index ".data ++ intStr index ++ ": IndexError".data)
    | some f =>
      match fs.readImage f with
      | .error m => .error ("Error validating image at index ".data ++ intStr index ++ ": ".data ++ m)
      | .ok d =>
        if supportedFormats.contains d.format then .ok ()
        else .error (msgUnsupported d.format)

/-- `IS_CHANGED`: re-runs enumeration, sort and the range check and returns
the selected candidate's modification time; every failure — missing or
empty path, no candidates, index out of range, or the `IndexError` the
subscription can raise inside the `try` — collapses to the `float("NaN")`
sentinel, modelled as `none`. -/
def IS_CHANGED (fs : FS) (folder csv : Str) (index : Int) : Option Int :=
  if folder = [] ∨ fs.pathExists folder = false then none
  else if candidateFiles fs folder csv = [] then none
  else if ((sortDesc fs.mtime (candidateFiles fs folder csv)).length : Int) ≤ index then none
  else
    match pyIndex (sortDesc fs.mtime (candidateFiles fs folder csv)) index with
    | some f => some (fs.mtime f)
    | none => none

/-- Whether an `Except` result is a success. -/
def isOkE {ε α : Type} : Except ε α → Bool
  | .ok _ => true
  | .error _ => false

deriving instance DecidableEq for Except

/-- The image tensor's shape of a selection result, when it succeeded. -/
def imageShapeOf (r : Except SelectError LoadResult) : Option (List Nat) :=
  match r with
  | .ok r => some (tshape r.image)
  | .error _ => none

/-- A concrete 1×1 plain-RGB image with no transparency marker. -/
def demoImgRGB : Img where
  mode := "RGB".data
  transparencyInfo := false
  height := 1
  width := 1
  rgb := fun _ _ _ => 40
  alpha := fun _ _ => 0

/-- A concrete 1×1 RGBA image with a half-transparent pixel. -/
def demoImgRGBA : Img where
  mode := "RGBA".data
  transparencyInfo := false
  height := 1
  width := 1
  rgb := fun _ _ _ => 40
  alpha := fun _ _ => 128

/-- A decodable PNG file holding the plain-RGB image. -/
def demoPNG : DecodedFile := ⟨"PNG".data, demoImgRGB⟩

/-- A concrete filesystem: directory `/imgs` holds `a.png`, `b.png`,
`c.png` with distinct modification times 10, 30, 20, all decoding as the
demo PNG. -/
def demoFS : FS where
  pathExists := fun p => p = "/imgs".data
  isDir := fun p => p = "/imgs".data
  listing := fun p => if p = "/imgs".data then ["a.png".data, "b.png".data, "c.png".data] else []
  mtime := fun p =>
    if p = "/imgs/a.png".data then 10
    else if p = "/imgs/b.png".data then 30
    else if p = "/imgs/c.png".data then 20 else 0
  readImage := fun _ => .ok demoPNG

/-- A filesystem where directory `/d` scans as `b.png` before `a.png` and
both files carry the same modification time. -/
def tieFS : FS where
  pathExists := fun p => p = "/d".data
  isDir := fun p => p = "/d".data
  listing := fun p => if p = "/d".data then ["b.png".data, "a.png".data] else []
  mtime := fun _ => 5
  readImage := fun _ => .ok demoPNG

/-- A filesystem whose directory `/dup` holds one file with the
non-alphabetic extension `.123` (lower and upper glob patterns coincide). -/
def dupFS : FS where
  pathExists := fun p => p = "/dup".data
  isDir := fun p => p = "/dup".data
  listing := fun p => if p = "/dup".data then ["x.123".data] else []
  mtime := fun _ => 7
  readImage := fun _ => .ok demoPNG

/-- Spec-side classifier for the refinement claim: whether a diagnostic
string of `VALIDATE_INPUTS` reports the same failure cause as a `select`
error, read off the fixed message prefix of each check. -/
def causeMatch : SelectError → Str → Bool
  | .notFound _, s =>
    "Folder path cannot be empty".data.isPrefixOf s
      || "Folder path does not exist: ".data.isPrefixOf s
  | .notADirectory _, s => "Path is not a directory: ".data.isPrefixOf s
  | .noMatch _, s => "No image files found in folder: ".data.isPrefixOf s
  | .indexOutOfRange _, s => "Index ".data.isPrefixOf s
  | .invalidImage _, s =>
    "Error validating image at index ".data.isPrefixOf s
      || "Unsupported image format: ".data.isPrefixOf s
  | .pyIndexErr, _ => false

/-! ## Properties of the stable descending sort -/

theorem insertDesc_perm (mt : Str → Int) (x : Str) (l : List Str) :
    List.Perm (insertDesc mt x l) (x :: l) := by
  induction l with
  | nil => simp [insertDesc]
  | cons y ys ih =>
    simp only [insertDesc]
    split
    · exact List.Perm.refl _
    · exact (ih.cons y).trans (List.Perm.swap x y ys)

theorem sortDesc_perm (mt : Str → Int) (l : List Str) :
    List.Perm (sortDesc mt l) l := by
  induction l with
  | nil => exact List.Perm.refl _
  | cons x xs ih => exact (insertDesc_perm mt x (sortDesc mt xs)).trans (ih.cons x)

theorem sortDesc_length (mt : Str → Int) (l : List Str) :
    (sortDesc mt l).length = l.length :=
  (sortDesc_perm mt l).length_eq

theorem insertDesc_mem (mt : Str → Int) (x b : Str) (l : List Str) :
    b ∈ insertDesc mt x l ↔ b = x ∨ b ∈ l := by
  rw [(insertDesc_perm mt x l).mem_iff, List.mem_cons]

theorem insertDesc_sorted (mt : Str → Int) (x : Str) (l : List Str)
    (h : l.Pairwise (fun a b => mt b ≤ mt a)) :
    (insertDesc mt x l).Pairwise (fun a b => mt b ≤ mt a) := by
  induction l with
  | nil => simp [insertDesc]
  | cons y ys ih =>
    obtain ⟨hy, hys⟩ := List.pairwise_cons.mp h
    simp only [insertDesc]
    by_cases hc : mt y ≤ mt x
    · rw [if_pos hc]
      refine List.pairwise_cons.mpr ⟨?_, h⟩
      intro b hb
      rcases List.mem_cons.mp hb with hb | hb
      · exact hb ▸ hc
      · exact le_trans (hy b hb) hc
    · rw [if_neg hc]
      refine List.pairwise_cons.mpr ⟨?_, ih hys⟩
      intro b hb
      rcases (insertDesc_mem mt x b ys).mp hb with hb | hb
      · exact hb ▸ le_of_lt (lt_of_not_le hc)
      · exact hy b hb

theorem sortDesc_sorted (mt : Str → Int) (l : List Str) :
    (sortDesc mt l).Pairwise (fun a b => mt b ≤ mt a) := by
  induction l with
  | nil => simp [sortDesc]
  | cons x xs ih => exact insertDesc_sorted mt x (sortDesc mt xs) ih

theorem insertDesc_filter_key (mt : Str → Int) (x : Str) (l : List Str) (t : Int) :
    (insertDesc mt x l).filter (fun y => decide (mt y = t))
      = if mt x = t then x :: l.filter (fun y => decide (mt y = t))
        else l.filter (fun y => decide (mt y = t)) := by
  induction l with
  | nil =>
    by_cases hx : mt x = t <;> simp [insertDesc, List.filter, hx]
  | cons y ys ih =>
    simp only [insertDesc]
    by_cases hc : mt y ≤ mt x
    · rw [if_pos hc]
      by_cases hx : mt x = t <;> simp [List.filter_cons, hx]
    · rw [if_neg hc]
      by_cases hx : mt x = t
      · have hy : ¬ mt y = t := by
          intro hyt
          exact hc (le_of_eq (hyt.trans hx.symm))
        simp [List.filter_cons, hy, ih, hx]
      · simp [List.filter_cons, ih, hx]

theorem sortDesc_filter_key (mt : Str → Int) (l : List Str) (t : Int) :
    (sortDesc mt l).filter (fun y => decide (mt y = t))
      = l.filter (fun y => decide (mt y = t)) := by
  induction l with
  | nil => rfl
  | cons x xs ih =>
    simp only [sortDesc]
    rw [insertDesc_filter_key]
    by_cases hx : mt x = t <;> simp [List.filter_cons, hx, ih]

theorem sorted_rank_countP (mt : Str → Int) (l : List Str) (k : Nat) (hk : k < l.length)
    (hSort : l.Pairwise (fun a b => mt b ≤ mt a))
    (hNe : l.Pairwise (fun a b => mt a ≠ mt b)) :
    l.countP (fun g => decide (mt (l.get ⟨k, hk⟩) < mt g)) = k := by
  set f := l.get ⟨k, hk⟩ with hf
  have hdecomp : l = l.take k ++ f :: l.drop (k + 1) := by
    conv_lhs => rw [← List.take_append_drop k l]
    rw [List.drop_eq_getElem_cons hk]
    rfl
  have hcross : ∀ x ∈ l.take k, mt f ≤ mt x ∧ mt x ≠ mt f := by
    intro x hx
    rw [hdecomp] at hSort hNe
    obtain ⟨-, -, hS⟩ := List.pairwise_append.mp hSort
    obtain ⟨-, -, hN⟩ := List.pairwise_append.mp hNe
    exact ⟨hS x hx f (List.mem_cons_self f _), hN x hx f (List.mem_cons_self f _)⟩
  have hdrop : ∀ y ∈ l.drop (k + 1), mt y ≤ mt f := by
    intro y hy
    rw [hdecomp] at hSort
    obtain ⟨-, hS, -⟩ := List.pairwise_append.mp hSort
    exact (List.pairwise_cons.mp hS).1 y hy
  have htake : (l.take k).countP (fun g => decide (mt f < mt g)) = k := by
    rw [List.countP_eq_length.mpr]
    · rw [List.length_take]
      exact Nat.min_eq_left (le_of_lt hk)
    · intro a ha
      have := hcross a ha
      exact decide_eq_true (lt_of_le_of_ne this.1 (Ne.symm this.2))
  have hdropz : (l.drop (k + 1)).countP (fun g => decide (mt f < mt g)) = 0 := by
    rw [List.countP_eq_zero]
    intro a ha
    simp only [decide_eq_true_eq]
    exact not_lt_of_le (hdrop a ha)
  conv_lhs => rw [hdecomp]
  rw [List.countP_append, List.countP_cons, htake, hdropz]
  simp

/-! ## Unfolding lemmas for the pipeline -/

theorem pyIndex_nonneg (l : List Str) (i : Int) (h0 : 0 ≤ i) (hlt : i < (l.length : Int)) :
    ∃ hb : i.toNat < l.length, pyIndex l i = some (l.get ⟨i.toNat, hb⟩) := by
  have hb : i.toNat < l.length := by omega
  refine ⟨hb, ?_⟩
  simp only [pyIndex]
  rw [if_pos h0, List.get?_eq_get hb]

theorem selectedPath_in_range (fs : FS) (folder csv : Str) (index : Int)
    (h1 : folder ≠ []) (h2 : fs.pathExists folder = true) (h3 : fs.isDir folder = true)
    (h4 : candidateFiles fs folder csv ≠ [])
    (h5 : index < ((candidateFiles fs folder csv).length : Int)) :
    selectedPath fs folder csv index
      = match pyIndex (sortDesc fs.mtime (candidateFiles fs folder csv)) index with
        | some f => .ok f
        | none => .error .pyIndexErr := by
  simp only [selectedPath]
  rw [if_neg (by simp [h1, h2]), if_neg (by simp [h3]), if_neg h4,
    if_neg (by rw [sortDesc_length]; exact not_le.mpr h5)]

theorem select_ok_imp (fs : FS) (folder csv : Str) (index : Int) (r : LoadResult)
    (h : select fs folder csv index = .ok r) : ∃ img, r = processImage img := by
  unfold select at h
  cases hsp : selectedPath fs folder csv index with
  | error e => rw [hsp] at h; simp at h
  | ok f =>
    rw [hsp] at h
    have h : loadImage fs f = Except.ok r := h
    unfold loadImage at h
    cases hri : fs.readImage f with
    | error m => rw [hri] at h; simp at h
    | ok d =>
      rw [hri] at h
      have h : (if supportedFormats.contains d.format = true then Except.ok (processImage d.img)
          else Except.error (SelectError.invalidImage
            (msgErrorLoading f (msgInvalidFile f (msgUnsupported d.format))))) = Except.ok r := h
      by_cases hc : supportedFormats.contains d.format
      · rw [if_pos hc] at h
        injection h with h
        exact ⟨d.img, h.symm⟩
      · rw [if_neg hc] at h; simp at h

/-! ## Shape lemmas for the materialized tensors -/

theorem tshape_batch (t : Tensor) : tshape (batch t) = 1 :: tshape t := rfl

theorem tshape_mapRange (h : Nat) (f : Nat → Tensor) :
    tshape (.arr ((List.range (h + 1)).map f)) = (h + 1) :: tshape (f 0) := by
  rw [List.range_succ_eq_map, List.map_cons]
  simp [tshape]

theorem tshape_maskTensorOf (h w : Nat) (f : Nat → Nat → ℚ) :
    tshape (maskTensorOf h w f)
      = if h = 0 then [0] else if w = 0 then [h, 0] else [h, w] := by
  cases h with
  | zero => simp [maskTensorOf, tshape]
  | succ m =>
    cases w with
    | zero =>
      rw [maskTensorOf, tshape_mapRange]
      simp [tshape]
    | succ n =>
      rw [maskTensorOf, tshape_mapRange, tshape_mapRange]
      simp [tshape]

theorem tshape_imageTensorOf (h w : Nat) (f : Nat → Nat → Fin 3 → ℚ) :
    tshape (imageTensorOf h w f)
      = if h = 0 then [0] else if w = 0 then [h, 0] else [h, w, 3] := by
  cases h with
  | zero => simp [imageTensorOf, tshape]
  | succ m =>
    cases w with
    | zero =>
      rw [imageTensorOf, tshape_mapRange]
      simp [tshape]
    | succ n =>
      rw [imageTensorOf, tshape_mapRange, tshape_mapRange]
      simp [tshape]

theorem stage12_height (img : Img) : (stage12 img).height = img.height := by
  unfold stage12 pointDiv255 toRGBA
  split <;> cases hT : img.transparencyInfo <;> simp [hT]

theorem stage12_width (img : Img) : (stage12 img).width = img.width := by
  unfold stage12 pointDiv255 toRGBA
  split <;> cases hT : img.transparencyInfo <;> simp [hT]

theorem isPrefixOf_append_self (l x : Str) : l.isPrefixOf (l ++ x) = true := by
  induction l with
  | nil => simp [List.isPrefixOf]
  | cons c cs ih => simp [List.isPrefixOf, ih]

theorem sorted_rank_countP_get (mt : Str → Int) (l : List Str) (k : Nat) (f : Str)
    (hSort : l.Pairwise (fun a b => mt b ≤ mt a))
    (hNe : l.Pairwise (fun a b => mt a ≠ mt b))
    (hget : l.get? k = some f) :
    l.countP (fun g => decide (mt f < mt g)) = k := by
  have hk : k < l.length := by
    by_contra hge
    rw [List.get?_eq_none.mpr (le_of_not_lt hge)] at hget
    cases hget
  have hf : l.get ⟨k, hk⟩ = f := by
    rw [List.get?_eq_get hk] at hget
    injection hget
  rw [← hf]
  exact sorted_rank_countP mt l k hk hSort hNe

/-! ## The claims -/

/-- C1: for a directory whose extension-matching candidates have pairwise
distinct modification times and `n` matches, `select(dir, csv, k)` with
`0 ≤ k < n` selects (and loads) the file with the kth-largest modification
time: the selected file is a candidate with exactly `k` candidates more
recently modified than it. -/
theorem select_rank_correct (fs : FS) (folder csv : Str) (k : Nat)
    (hfol : folder ≠ []) (hex : fs.pathExists folder = true) (hdir : fs.isDir folder = true)
    (hdist : (candidateFiles fs folder csv).Pairwise (fun a b => fs.mtime a ≠ fs.mtime b))
    (hk : k < (candidateFiles fs folder csv).length) :
    ∃ f, selectedPath fs folder csv (k : Int) = .ok f
      ∧ f ∈ candidateFiles fs folder csv
      ∧ (candidateFiles fs folder csv).countP (fun g => decide (fs.mtime f < fs.mtime g)) = k
      ∧ select fs folder csv (k : Int) = loadImage fs f := by
  have hperm := sortDesc_perm fs.mtime (candidateFiles fs folder csv)
  have hlen : (sortDesc fs.mtime (candidateFiles fs folder csv)).length
      = (candidateFiles fs folder csv).length := hperm.length_eq
  have hne : candidateFiles fs folder csv ≠ [] := by
    intro h0
    rw [h0] at hk
    simp at hk
  have hklt : ((k : Nat) : Int) < ((candidateFiles fs folder csv).length : Int) := by
    exact_mod_cast hk
  have hpath := selectedPath_in_range fs folder csv (k : Int) hfol hex hdir hne hklt
  have h0 : (0 : Int) ≤ (k : Int) := Int.ofNat_nonneg k
  have hpy : pyIndex (sortDesc fs.mtime (candidateFiles fs folder csv)) (k : Int)
      = (sortDesc fs.mtime (candidateFiles fs folder csv)).get? k := by
    simp only [pyIndex, if_pos h0, Int.toNat_natCast]
  have hklt2 : k < (sortDesc fs.mtime (candidateFiles fs folder csv)).length := by
    rw [hlen]; exact hk
  obtain ⟨f, hget⟩ : ∃ f, (sortDesc fs.mtime (candidateFiles fs folder csv)).get? k = some f :=
    ⟨_, List.get?_eq_get hklt2⟩
  refine ⟨f, ?_, ?_, ?_, ?_⟩
  · rw [hpath, hpy, hget]
  · exact hperm.mem_iff.mp (List.get?_mem hget)
  · rw [← hperm.countP_eq]
    exact sorted_rank_countP_get fs.mtime _ k f
      (sortDesc_sorted fs.mtime (candidateFiles fs folder csv))
      ((hperm.pairwise_iff (fun h => h.symm)).mpr hdist) hget
  · unfold select
    rw [hpath, hpy, hget]

/-- C1 witness: on the demo filesystem (`a.png`, `b.png`, `c.png` with
times 10, 30, 20), rank 1 selects a candidate with exactly one more recent
candidate. -/
theorem select_rank_correct_witness :
    ∃ f, selectedPath demoFS "/imgs".data "png".data ((1 : Nat) : Int) = .ok f
      ∧ f ∈ candidateFiles demoFS "/imgs".data "png".data
      ∧ (candidateFiles demoFS "/imgs".data "png".data).countP
          (fun g => decide (demoFS.mtime f < demoFS.mtime g)) = 1
      ∧ select demoFS "/imgs".data "png".data ((1 : Nat) : Int) = loadImage demoFS f :=
  select_rank_correct demoFS "/imgs".data "png".data 1 (by decide) (by decide) (by decide)
    (by decide) (by decide)

/-- C2: whenever the image is RGBA once the transparency promotion has run,
the returned mask is computed pixel-wise as `mask = 1 - alpha/255` (so
alpha 0 maps to 1.0, alpha 255 to 0.0, alpha 128 to about 0.498), and the
returned RGB buffer is the image's RGB channels with the alpha channel
dropped (scaled to `[0,1]`). -/
theorem rgba_mask_inversion (img : Img) (hmode : (stage12 img).mode = "RGBA".data) :
    processImage img
      = { image := batch (imageTensorOf (stage12 img).height (stage12 img).width
            (fun y x c => scaleVal ((stage12 img).rgb y x c)))
          mask := batch (maskTensorOf (stage12 img).height (stage12 img).width
            (fun y x => maskVal ((stage12 img).alpha y x))) }
      ∧ maskVal 0 = 1 ∧ maskVal 255 = 0 ∧ maskVal 128 = 127 / 255
      ∧ |maskVal 128 - 498 / 1000| < 1 / 1000 := by
  refine ⟨?_, by norm_num [maskVal], by norm_num [maskVal], by norm_num [maskVal], ?_⟩
  · simp only [processImage]
    rw [if_pos hmode]
  · simp only [maskVal, abs_lt]
    constructor <;> norm_num

/-- C2 witness: the demo RGBA image with alpha 128. -/
theorem rgba_mask_inversion_witness :
    processImage demoImgRGBA
      = { image := batch (imageTensorOf (stage12 demoImgRGBA).height (stage12 demoImgRGBA).width
            (fun y x c => scaleVal ((stage12 demoImgRGBA).rgb y x c)))
          mask := batch (maskTensorOf (stage12 demoImgRGBA).height (stage12 demoImgRGBA).width
            (fun y x => maskVal ((stage12 demoImgRGBA).alpha y x))) }
      ∧ maskVal 0 = 1 ∧ maskVal 255 = 0 ∧ maskVal 128 = 127 / 255
      ∧ |maskVal 128 - 498 / 1000| < 1 / 1000 :=
  rgba_mask_inversion demoImgRGBA (by decide)

/-- C3: `select` fails with the error of the first failing condition, in
source order — missing directory (`notFound`), path not a directory
(`notADirectory`), no extension matches (`noMatch`), rank out of range
(`indexOutOfRange`, in particular at `index = n`; `index = n - 1` passes
the range check), decode failure or unsupported format (`invalidImage`) —
and each failure message embeds the offending path and/or index. -/
theorem select_error_taxonomy (fs : FS) (folder csv : Str) (index : Int) :
    ((folder = [] ∨ fs.pathExists folder = false) →
      select fs folder csv index = .error (.notFound (msgNotFound folder)))
    ∧ (folder ≠ [] → fs.pathExists folder = true → fs.isDir folder = false →
      select fs folder csv index = .error (.notADirectory (msgNotADir folder)))
    ∧ (folder ≠ [] → fs.pathExists folder = true → fs.isDir folder = true →
      candidateFiles fs folder csv = [] →
      select fs folder csv index = .error (.noMatch (msgNoMatch folder)))
    ∧ (folder ≠ [] → fs.pathExists folder = true → fs.isDir folder = true →
      candidateFiles fs folder csv ≠ [] →
      ((candidateFiles fs folder csv).length : Int) ≤ index →
      select fs folder csv index
        = .error (.indexOutOfRange (msgOutOfRange index (candidateFiles fs folder csv).length)))
    ∧ (∀ f m, selectedPath fs folder csv index = .ok f → fs.readImage f = .error m →
      select fs folder csv index
        = .error (.invalidImage (msgErrorLoading f (msgInvalidFile f m))))
    ∧ (∀ f d, selectedPath fs folder csv index = .ok f → fs.readImage f = .ok d →
      supportedFormats.contains d.format = false →
      select fs folder csv index
        = .error (.invalidImage (msgErrorLoading f (msgInvalidFile f (msgUnsupported d.format)))))
    ∧ (∀ f d, selectedPath fs folder csv index = .ok f → fs.readImage f = .ok d →
      supportedFormats.contains d.format = true →
      select fs folder csv index = .ok (processImage d.img))
    ∧ (folder ≠ [] → fs.pathExists folder = true → fs.isDir folder = true →
      candidateFiles fs folder csv ≠ [] →
      index = ((candidateFiles fs folder csv).length : Int) - 1 →
      ∃ f, selectedPath fs folder csv index = .ok f) := by
  refine ⟨?_, ?_, ?_, ?_, ?_, ?_, ?_, ?_⟩
  · intro h
    have hsp : selectedPath fs folder csv index = .error (.notFound (msgNotFound folder)) := by
      unfold selectedPath
      rw [if_pos h]
    unfold select
    rw [hsp]
  · intro h1 h2 h3
    have hsp : selectedPath fs folder csv index = .error (.notADirectory (msgNotADir folder)) := by
      unfold selectedPath
      rw [if_neg (by simp [h1, h2]), if_pos h3]
    unfold select
    rw [hsp]
  · intro h1 h2 h3 h4
    have hsp : selectedPath fs folder csv index = .error (.noMatch (msgNoMatch folder)) := by
      unfold selectedPath
      rw [if_neg (by simp [h1, h2]), if_neg (by simp [h3]), if_pos h4]
    unfold select
    rw [hsp]
  · intro h1 h2 h3 h4 h5
    have hsp : selectedPath fs folder csv index
        = .error (.indexOutOfRange (msgOutOfRange index (candidateFiles fs folder csv).length)) := by
      unfold selectedPath
      rw [if_neg (by simp [h1, h2]), if_neg (by simp [h3]), if_neg h4,
        if_pos (by rw [sortDesc_length]; exact h5), sortDesc_length]
    unfold select
    rw [hsp]
  · intro f m hsp hri
    unfold select
    rw [hsp]
    show loadImage fs f = _
    unfold loadImage
    rw [hri]
  · intro f d hsp hri hc
    unfold select
    rw [hsp]
    show loadImage fs f = _
    unfold loadImage
    rw [hri]
    simp [hc]
    simpa using hc
  · intro f d hsp hri hc
    unfold select
    rw [hsp]
    show loadImage fs f = _
    unfold loadImage
    rw [hri]
    simp [hc]
    simpa using hc
  · intro h1 h2 h3 h4 h5
    have hn : 0 < (candidateFiles fs folder csv).length := List.length_pos.mpr h4
    have hlt : index < ((candidateFiles fs folder csv).length : Int) := by omega
    have hpath := selectedPath_in_range fs folder csv index h1 h2 h3 h4 hlt
    obtain ⟨hb, hpy⟩ := pyIndex_nonneg (sortDesc fs.mtime (candidateFiles fs folder csv)) index
      (by omega) (by rw [sortDesc_length]; exact hlt)
    exact ⟨_, by rw [hpath, hpy]⟩

/-- C4 counterexample: at index −1 on the demo directory, `select` succeeds
(Python's negative subscript wraps around) while `VALIDATE_INPUTS` rejects
the index, so validation success and selection success do not coincide. -/
theorem validate_select_negative_cex :
    isOkE (select demoFS "/imgs".data "png".data (-1)) = true
      ∧ VALIDATE_INPUTS demoFS "/imgs".data "png".data (-1)
          = .error ("Index must be non-negative, got: -1".data) :=
  ⟨by decide, by decide⟩

/-- C4 (amended): for every non-negative index, `VALIDATE_INPUTS` returns
the success sentinel exactly when `select` succeeds, every diagnostic is a
non-empty string, and the diagnostic reports the same failure cause as the
error `select` raises; negative indices (which `select` accepts but
validation rejects) are excluded, as forced by the counterexample. -/
theorem validate_iff_select_nonneg (fs : FS) (folder csv : Str) (index : Int)
    (hidx : 0 ≤ index) :
    (VALIDATE_INPUTS fs folder csv index = .ok () ↔ isOkE (select fs folder csv index) = true)
    ∧ (∀ s, VALIDATE_INPUTS fs folder csv index = .error s → s ≠ [])
    ∧ (∀ e, select fs folder csv index = .error e →
        ∃ s, VALIDATE_INPUTS fs folder csv index = .error s ∧ causeMatch e s = true) := by
  by_cases h1 : folder = []
  · have hV : VALIDATE_INPUTS fs folder csv index
        = .error "Folder path cannot be empty".data := by
      unfold VALIDATE_INPUTS
      rw [if_pos h1]
    have hsp : selectedPath fs folder csv index = .error (.notFound (msgNotFound folder)) := by
      unfold selectedPath
      rw [if_pos (Or.inl h1)]
    have hS : select fs folder csv index = .error (.notFound (msgNotFound folder)) := by
      unfold select
      rw [hsp]
    refine ⟨by rw [hV, hS]; simp [isOkE], ?_, ?_⟩
    · intro s hs
      rw [hV] at hs
      injection hs with hs
      rw [← hs]
      exact List.cons_ne_nil _ _
    · intro e he
      rw [hS] at he
      injection he with he
      subst he
      exact ⟨_, hV, by simp [causeMatch]⟩
  by_cases hpe : fs.pathExists folder = false
  · have hV : VALIDATE_INPUTS fs folder csv index = .error (msgNotFound folder) := by
      unfold VALIDATE_INPUTS
      rw [if_neg h1, if_pos hpe]
    have hsp : selectedPath fs folder csv index = .error (.notFound (msgNotFound folder)) := by
      unfold selectedPath
      rw [if_pos (Or.inr hpe)]
    have hS : select fs folder csv index = .error (.notFound (msgNotFound folder)) := by
      unfold select
      rw [hsp]
    refine ⟨by rw [hV, hS]; simp [isOkE], ?_, ?_⟩
    · intro s hs
      rw [hV] at hs
      injection hs with hs
      rw [← hs]
      exact List.cons_ne_nil _ _
    · intro e he
      rw [hS] at he
      injection he with he
      subst he
      exact ⟨_, hV, by simp [causeMatch, msgNotFound, isPrefixOf_append_self]⟩
  have hpe' : fs.pathExists folder = true := by
    cases hx : fs.pathExists folder
    · exact absurd hx hpe
    · rfl
  by_cases hdir : fs.isDir folder = false
  · have hV : VALIDATE_INPUTS fs folder csv index = .error (msgNotADir folder) := by
      unfold VALIDATE_INPUTS
      rw [if_neg h1, if_neg (by simp [hpe']), if_pos hdir]
    have hsp : selectedPath fs folder csv index
        = .error (.notADirectory (msgNotADir folder)) := by
      unfold selectedPath
      rw [if_neg (by simp [h1, hpe']), if_pos hdir]
    have hS : select fs folder csv index = .error (.notADirectory (msgNotADir folder)) := by
      unfold select
      rw [hsp]
    refine ⟨by rw [hV, hS]; simp [isOkE], ?_, ?_⟩
    · intro s hs
      rw [hV] at hs
      injection hs with hs
      rw [← hs]
      exact List.cons_ne_nil _ _
    · intro e he
      rw [hS] at he
      injection he with he
      subst he
      exact ⟨_, hV, by simp [causeMatch, msgNotADir, isPrefixOf_append_self]⟩
  have hdir' : fs.isDir folder = true := by
    cases hx : fs.isDir folder
    · exact absurd hx hdir
    · rfl
  by_cases hcf : candidateFiles fs folder csv = []
  · have hV : VALIDATE_INPUTS fs folder csv index = .error (msgNoMatch folder) := by
      unfold VALIDATE_INPUTS
      rw [if_neg h1, if_neg (by simp [hpe']), if_neg (by simp [hdir']),
        if_neg (by omega), if_pos hcf]
    have hsp : selectedPath fs folder csv index = .error (.noMatch (msgNoMatch folder)) := by
      unfold selectedPath
      rw [if_neg (by simp [h1, hpe']), if_neg (by simp [hdir']), if_pos hcf]
    have hS : select fs folder csv index = .error (.noMatch (msgNoMatch folder)) := by
      unfold select
      rw [hsp]
    refine ⟨by rw [hV, hS]; simp [isOkE], ?_, ?_⟩
    · intro s hs
      rw [hV] at hs
      injection hs with hs
      rw [← hs]
      exact List.cons_ne_nil _ _
    · intro e he
      rw [hS] at he
      injection he with he
      subst he
      exact ⟨_, hV, by simp [causeMatch, msgNoMatch, isPrefixOf_append_self]⟩
  by_cases hrange : ((candidateFiles fs folder csv).length : Int) ≤ index
  · have hV : VALIDATE_INPUTS fs folder csv index
        = .error (msgOutOfRange index (candidateFiles fs folder csv).length) := by
      unfold VALIDATE_INPUTS
      rw [if_neg h1, if_neg (by simp [hpe']), if_neg (by simp [hdir']),
        if_neg (by omega), if_neg hcf, if_pos hrange]
    have hsp : selectedPath fs folder csv index
        = .error (.indexOutOfRange (msgOutOfRange index (candidateFiles fs folder csv).length)) := by
      unfold selectedPath
      rw [if_neg (by simp [h1, hpe']), if_neg (by simp [hdir']), if_neg hcf,
        if_pos (by rw [sortDesc_length]; exact hrange), sortDesc_length]
    have hS : select fs folder csv index
        = .error (.indexOutOfRange (msgOutOfRange index (candidateFiles fs folder csv).length)) := by
      unfold select
      rw [hsp]
    refine ⟨by rw [hV, hS]; simp [isOkE], ?_, ?_⟩
    · intro s hs
      rw [hV] at hs
      injection hs with hs
      rw [← hs]
      exact List.cons_ne_nil _ _
    · intro e he
      rw [hS] at he
      injection he with he
      subst he
      exact ⟨_, hV, by simp [causeMatch, msgOutOfRange, List.append_assoc, isPrefixOf_append_self]⟩
  have hlt : index < ((candidateFiles fs folder csv).length : Int) := not_le.mp hrange
  obtain ⟨hb, hpy⟩ := pyIndex_nonneg (sortDesc fs.mtime (candidateFiles fs folder csv)) index
    hidx (by rw [sortDesc_length]; exact hlt)
  set f := (sortDesc fs.mtime (candidateFiles fs folder csv)).get ⟨index.toNat, hb⟩ with hfdef
  have hspf : selectedPath fs folder csv index = .ok f := by
    rw [selectedPath_in_range fs folder csv index h1 hpe' hdir' hcf hlt, hpy]
  have hVpre : VALIDATE_INPUTS fs folder csv index
      = (match fs.readImage f with
        | .error m => .error ("Error validating image at index ".data ++ intStr index ++ ": ".data ++ m)
        | .ok d =>
          if supportedFormats.contains d.format then Except.ok ()
          else .error (msgUnsupported d.format)) := by
    unfold VALIDATE_INPUTS
    rw [if_neg h1, if_neg (by simp [hpe']), if_neg (by simp [hdir']),
      if_neg (by omega), if_neg hcf, if_neg hrange, hpy]
  have hSpre : select fs folder csv index = loadImage fs f := by
    unfold select
    rw [hspf]
  cases hri : fs.readImage f with
  | error m =>
    have hV : VALIDATE_INPUTS fs folder csv index
        = .error ("Error validating image at index ".data ++ intStr index ++ ": ".data ++ m) := by
      rw [hVpre, hri]
    have hS : select fs folder csv index
        = .error (.invalidImage (msgErrorLoading f (msgInvalidFile f m))) := by
      rw [hSpre]
      unfold loadImage
      rw [hri]
    refine ⟨by rw [hV, hS]; simp [isOkE], ?_, ?_⟩
    · intro s hs
      rw [hV] at hs
      injection hs with hs
      rw [← hs]
      exact List.cons_ne_nil _ _
    · intro e he
      rw [hS] at he
      injection he with he
      subst he
      exact ⟨_, hV, by simp [causeMatch, List.append_assoc, isPrefixOf_append_self]⟩
  | ok d =>
    by_cases hc : supportedFormats.contains d.format
    · have hV : VALIDATE_INPUTS fs folder csv index = .ok () := by
        rw [hVpre, hri]
        simp [hc]
        simpa using hc
      have hS : select fs folder csv index = .ok (processImage d.img) := by
        rw [hSpre]
        unfold loadImage
        rw [hri]
        simp [hc]
        simpa using hc
      refine ⟨by rw [hV, hS]; simp [isOkE], ?_, ?_⟩
      · intro s hs
        rw [hV] at hs
        simp at hs
      · intro e he
        rw [hS] at he
        simp at he
    · have hV : VALIDATE_INPUTS fs folder csv index = .error (msgUnsupported d.format) := by
        rw [hVpre, hri]
        simp [hc]
        simpa using hc
      have hS : select fs folder csv index
          = .error (.invalidImage (msgErrorLoading f (msgInvalidFile f (msgUnsupported d.format)))) := by
        rw [hSpre]
        unfold loadImage
        rw [hri]
        simp [hc]
        simpa using hc
      refine ⟨by rw [hV, hS]; simp [isOkE], ?_, ?_⟩
      · intro s hs
        rw [hV] at hs
        injection hs with hs
        rw [← hs]
        exact List.cons_ne_nil _ _
      · intro e he
        rw [hS] at he
        injection he with he
        subst he
        exact ⟨_, hV, by simp [causeMatch, msgUnsupported, isPrefixOf_append_self]⟩

/-- C4 witness: the amended equivalence at index 0 on the demo directory. -/
theorem validate_iff_select_nonneg_witness :
    (VALIDATE_INPUTS demoFS "/imgs".data "png".data 0 = .ok ()
        ↔ isOkE (select demoFS "/imgs".data "png".data 0) = true)
    ∧ (∀ s, VALIDATE_INPUTS demoFS "/imgs".data "png".data 0 = .error s → s ≠ [])
    ∧ (∀ e, select demoFS "/imgs".data "png".data 0 = .error e →
        ∃ s, VALIDATE_INPUTS demoFS "/imgs".data "png".data 0 = .error s
          ∧ causeMatch e s = true) :=
  validate_iff_select_nonneg demoFS "/imgs".data "png".data 0 (by decide)

/-- C5: `IS_CHANGED` (the change token) is total and collapses every
failure — missing or empty directory path, no matching candidates, rank
index at or beyond the candidate count — to the not-a-number sentinel
(`none`), and otherwise returns the modification time of the candidate at
the requested rank of the recency-sorted list. -/
theorem change_token_behavior (fs : FS) (folder csv : Str) (index : Int) :
    ((folder = [] ∨ fs.pathExists folder = false) → IS_CHANGED fs folder csv index = none)
    ∧ (candidateFiles fs folder csv = [] → IS_CHANGED fs folder csv index = none)
    ∧ (((candidateFiles fs folder csv).length : Int) ≤ index →
        IS_CHANGED fs folder csv index = none)
    ∧ (∀ f, folder ≠ [] → fs.pathExists folder = true →
        pyIndex (sortDesc fs.mtime (candidateFiles fs folder csv)) index = some f →
        index < ((candidateFiles fs folder csv).length : Int) →
        IS_CHANGED fs folder csv index = some (fs.mtime f)) := by
  refine ⟨?_, ?_, ?_, ?_⟩
  · intro h
    unfold IS_CHANGED
    rw [if_pos h]
  · intro h
    unfold IS_CHANGED
    by_cases h1 : folder = [] ∨ fs.pathExists folder = false
    · rw [if_pos h1]
    · rw [if_neg h1, if_pos h]
  · intro h
    unfold IS_CHANGED
    by_cases h1 : folder = [] ∨ fs.pathExists folder = false
    · rw [if_pos h1]
    · by_cases h2 : candidateFiles fs folder csv = []
      · rw [if_neg h1, if_pos h2]
      · rw [if_neg h1, if_neg h2, if_pos (by rw [sortDesc_length]; exact h)]
  · intro f h1 h2 hpy hlt
    have hne : candidateFiles fs folder csv ≠ [] := by
      intro h0
      rw [h0] at hpy
      simp [sortDesc, pyIndex] at hpy
    unfold IS_CHANGED
    rw [if_neg (by simp [h1, h2]), if_neg hne,
      if_neg (by rw [sortDesc_length]; exact not_le.mpr hlt), hpy]

theorem stage12_plain (img : Img) (hmode : img.mode ≠ "I".data)
    (htr : img.transparencyInfo = false) : stage12 img = img := by
  simp [stage12, hmode, htr]

theorem processImage_mask_shape (img : Img) :
    tshape (processImage img).mask = (tshape (processImage img).image).take 3 := by
  simp only [processImage]
  by_cases hm : (stage12 img).mode = "RGBA".data
  · rw [if_pos hm]
    by_cases hh : (stage12 img).height = 0 <;> by_cases hw : (stage12 img).width = 0 <;>
      simp [tshape_batch, tshape_maskTensorOf, tshape_imageTensorOf, hh, hw]
  · rw [if_neg hm]
    by_cases hh : (stage12 img).height = 0 <;> by_cases hw : (stage12 img).width = 0 <;>
      simp [tshape_batch, tshape_maskTensorOf, tshape_imageTensorOf, hh, hw]

/-- C6: every successful selection result carries a mask whose width and
height equal the RGB buffer's width and height, and a plain-RGB image with
no transparency marker yields the all-ones mask over the full extent. -/
theorem mask_dims_match_rgb_all_ones :
    (∀ (fs : FS) (folder csv : Str) (index : Int) (r : LoadResult),
      select fs folder csv index = .ok r → tshape r.mask = (tshape r.image).take 3)
    ∧ (∀ img : Img, img.mode = "RGB".data → img.transparencyInfo = false →
      (processImage img).mask = batch (maskTensorOf img.height img.width (fun _ _ => 1))
        ∧ tshape (processImage img).mask = (tshape (processImage img).image).take 3) := by
  constructor
  · intro fs folder csv index r h
    obtain ⟨img, rfl⟩ := select_ok_imp fs folder csv index r h
    exact processImage_mask_shape img
  · intro img hmode htr
    refine ⟨?_, processImage_mask_shape img⟩
    have hst := stage12_plain img (by rw [hmode]; decide) htr
    simp only [processImage, hst]
    rw [if_neg (by rw [hmode]; decide)]

/-- C7 counterexample: the buffer `select` returns for a 1×1 image has
shape 1×1×1×3 — a leading length-1 batch axis is part of the returned
value — not the batchless 1×1×3 the claim states. -/
theorem image_batch_dim_cex :
    imageShapeOf (select demoFS "/imgs".data "png".data 0) = some [1, 1, 1, 3]
      ∧ imageShapeOf (select demoFS "/imgs".data "png".data 0) ≠ some [1, 1, 3] :=
  ⟨by decide, by decide⟩

/-- C7 (amended): the RGB buffer is height × width × 3 with every sample
scaled from [0,255] to [0,1] by division by 255, but wrapped by the
component itself in a leading length-1 batch axis, so the returned tensor
has shape 1 × height × width × 3 (the claim's statement that no batch
dimension is part of the returned value is what the counterexample
refutes). -/
theorem image_buffer_shape_scaled (img : Img) :
    ((processImage img).image
      = batch (imageTensorOf (stage12 img).height (stage12 img).width
          (fun y x c => scaleVal ((stage12 img).rgb y x c))))
    ∧ (0 < img.height → 0 < img.width →
        tshape (processImage img).image = [1, img.height, img.width, 3])
    ∧ scaleVal 0 = 0 ∧ scaleVal 255 = 1
    ∧ (∀ v : ℚ, scaleVal v = v / 255) := by
  refine ⟨?_, ?_, by norm_num [scaleVal], by norm_num [scaleVal], fun v => rfl⟩
  · simp only [processImage]
    by_cases hm : (stage12 img).mode = "RGBA".data
    · rw [if_pos hm]
    · rw [if_neg hm]
  · intro hh hw
    simp only [processImage]
    by_cases hm : (stage12 img).mode = "RGBA".data
    · rw [if_pos hm]
      simp [tshape_batch, tshape_imageTensorOf, stage12_height, stage12_width, hh.ne', hw.ne']
    · rw [if_neg hm]
      simp [tshape_batch, tshape_imageTensorOf, stage12_height, stage12_width, hh.ne', hw.ne']

/-- C8 counterexample: in a directory scanned as `b.png` before `a.png`
with equal modification times, rank 0 selects `b.png`, not the
path-ascending `a.png` the claim prescribes for tie groups. -/
theorem tie_break_path_cex :
    tieFS.mtime "/d/a.png".data = tieFS.mtime "/d/b.png".data
      ∧ selectedPath tieFS "/d".data "png".data 0 = .ok "/d/b.png".data
      ∧ selectedPath tieFS "/d".data "png".data 0 ≠ .ok "/d/a.png".data :=
  ⟨by decide, by decide, by decide⟩

/-- C8 (amended): the descending sort is stable, so candidates with equal
modification times keep their enumeration (glob scan) order — not path
string ascending order; each equal-time rank group of the sorted list is
exactly the corresponding subsequence of the candidate list. -/
theorem tie_break_enumeration_stable (fs : FS) (folder csv : Str) (t : Int) :
    List.Perm (sortDesc fs.mtime (candidateFiles fs folder csv)) (candidateFiles fs folder csv)
    ∧ (sortDesc fs.mtime (candidateFiles fs folder csv)).Pairwise
        (fun a b => fs.mtime b ≤ fs.mtime a)
    ∧ (sortDesc fs.mtime (candidateFiles fs folder csv)).filter
        (fun x => decide (fs.mtime x = t))
      = (candidateFiles fs folder csv).filter (fun x => decide (fs.mtime x = t)) :=
  ⟨sortDesc_perm fs.mtime (candidateFiles fs folder csv),
    sortDesc_sorted fs.mtime (candidateFiles fs folder csv),
    sortDesc_filter_key fs.mtime (candidateFiles fs folder csv) t⟩

/-- C9: no deduplication is performed: for an extension token equal to its
own upper-case form, the loop's two globs return the same files, so each
matching entry appears twice in that token's contribution; with such a
token the candidate count is twice the number of matching directory
entries. -/
theorem duplicate_candidates (fs : FS) (folder csv e : Str) (hup : pyUpper e = e) :
    globPair fs folder e = globOnce fs folder e ++ globOnce fs folder e
    ∧ (e ∈ parseExtensions csv →
        ∀ p, 2 * (globOnce fs folder e).count p ≤ (candidateFiles fs folder csv).count p)
    ∧ (parseExtensions csv = [e] →
        (candidateFiles fs folder csv).length
          = 2 * ((fs.listing folder).filter (globMatch e)).length) := by
  have hpair : globPair fs folder e = globOnce fs folder e ++ globOnce fs folder e := by
    unfold globPair
    rw [hup]
  refine ⟨hpair, ?_, ?_⟩
  · intro hmem p
    obtain ⟨s, tl, hst⟩ := List.append_of_mem hmem
    unfold candidateFiles candidatesFor
    rw [hst, List.flatMap_append, List.flatMap_cons]
    rw [List.count_append, List.count_append, hpair, List.count_append]
    omega
  · intro hpe
    unfold candidateFiles candidatesFor
    rw [hpe]
    simp [hpair, globOnce]
    omega

/-- C10: a negative index with `-n ≤ index ≤ -1` passes the range check
(which only rejects `index ≥ n`) and selects the candidate at position
`n + index` of the recency-sorted list, while `VALIDATE_INPUTS` rejects
every negative index with a diagnostic. -/
theorem negative_index_select_vs_validate (fs : FS) (folder csv : Str) (index : Int)
    (h1 : folder ≠ []) (h2 : fs.pathExists folder = true) (h3 : fs.isDir folder = true)
    (h4 : candidateFiles fs folder csv ≠ [])
    (h5 : -((candidateFiles fs folder csv).length : Int) ≤ index) (h6 : index ≤ -1) :
    ∃ hb : (((candidateFiles fs folder csv).length : Int) + index).toNat
        < (sortDesc fs.mtime (candidateFiles fs folder csv)).length,
      selectedPath fs folder csv index
        = .ok ((sortDesc fs.mtime (candidateFiles fs folder csv)).get
            ⟨(((candidateFiles fs folder csv).length : Int) + index).toNat, hb⟩)
      ∧ select fs folder csv index
        = loadImage fs ((sortDesc fs.mtime (candidateFiles fs folder csv)).get
            ⟨(((candidateFiles fs folder csv).length : Int) + index).toNat, hb⟩)
      ∧ VALIDATE_INPUTS fs folder csv index
        = .error ("Index must be non-negative, got: ".data ++ intStr index) := by
  have hn : 0 < (candidateFiles fs folder csv).length := List.length_pos.mpr h4
  have hlt : index < ((candidateFiles fs folder csv).length : Int) := by omega
  have hb : (((candidateFiles fs folder csv).length : Int) + index).toNat
      < (sortDesc fs.mtime (candidateFiles fs folder csv)).length := by
    rw [sortDesc_length]
    omega
  have hpy : pyIndex (sortDesc fs.mtime (candidateFiles fs folder csv)) index
      = some ((sortDesc fs.mtime (candidateFiles fs folder csv)).get
          ⟨(((candidateFiles fs folder csv).length : Int) + index).toNat, hb⟩) := by
    unfold pyIndex
    simp only [sortDesc_length]
    rw [if_neg (by omega), if_pos h5, List.get?_eq_get hb]
  refine ⟨hb, ?_, ?_, ?_⟩
  · rw [selectedPath_in_range fs folder csv index h1 h2 h3 h4 hlt, hpy]
  · unfold select
    rw [selectedPath_in_range fs folder csv index h1 h2 h3 h4 hlt, hpy]
  · unfold VALIDATE_INPUTS
    rw [if_neg h1, if_neg (by simp [h2]), if_neg (by simp [h3]), if_pos (by omega)]

/-- C9 witness: the token `.123`, whose upper-case form is itself, makes
the single file `x.123` appear twice in the candidate list. -/
theorem duplicate_candidates_witness :
    globPair dupFS "/dup".data ".123".data
      = globOnce dupFS "/dup".data ".123".data ++ globOnce dupFS "/dup".data ".123".data
    ∧ (".123".data ∈ parseExtensions ".123".data →
        ∀ p, 2 * (globOnce dupFS "/dup".data ".123".data).count p
          ≤ (candidateFiles dupFS "/dup".data ".123".data).count p)
    ∧ (parseExtensions ".123".data = [".123".data] →
        (candidateFiles dupFS "/dup".data ".123".data).length
          = 2 * ((dupFS.listing "/dup".data).filter (globMatch ".123".data)).length) :=
  duplicate_candidates dupFS "/dup".data ".123".data ".123".data (by decide)

/-- C10 witness: index −1 on the demo directory selects the oldest match
while validation rejects the negative index. -/
theorem negative_index_select_vs_validate_witness :
    ∃ hb : (((candidateFiles demoFS "/imgs".data "png".data).length : Int) + (-1)).toNat
        < (sortDesc demoFS.mtime (candidateFiles demoFS "/imgs".data "png".data)).length,
      selectedPath demoFS "/imgs".data "png".data (-1)
        = .ok ((sortDesc demoFS.mtime (candidateFiles demoFS "/imgs".data "png".data)).get
            ⟨(((candidateFiles demoFS "/imgs".data "png".data).length : Int) + (-1)).toNat, hb⟩)
      ∧ select demoFS "/imgs".data "png".data (-1)
        = loadImage demoFS
            ((sortDesc demoFS.mtime (candidateFiles demoFS "/imgs".data "png".data)).get
              ⟨(((candidateFiles demoFS "/imgs".data "png".data).length : Int) + (-1)).toNat, hb⟩)
      ∧ VALIDATE_INPUTS demoFS "/imgs".data "png".data (-1)
        = .error ("Index must be non-negative, got: ".data ++ intStr (-1)) :=
  negative_index_select_vs_validate demoFS "/imgs".data "png".data (-1) (by decide) (by decide)
    (by decide) (by decide) (by decide) (by decide)
